import Mathlib

/-!
# Verification of `quodlibet/qltk/searchbar.py`

A shallow embedding of the `SearchBarBox` / `LimitSearchBarBox` widgets from
`quodlibet/qltk/searchbar.py`, together with proofs about the behaviour the
specification claims: debounced propagation of the `query-changed` signal,
history persistence, and the optional limit sub-widget.

The widget's collaborators are modelled as follows:

* `Query.is_parsable` and the `eager_search` configuration flag are external
  to the file; they are collected in an `Env` record and every handler is
  parametrised by it.
* The GLib main loop is modelled by an explicit list of live sources
  (`Glib.sources`), each tagged with the id returned by `idle_add` /
  `timeout_add`; `source_remove` deletes by id.  An idle source carries the
  text that `self.emit('query-changed', text)` will deliver; a timeout source
  carries its delay in milliseconds and invokes `__filter_changed` when it
  fires.
* The `ComboBoxEntrySave` history model is a list of strings; `write()`
  copies the model to `savedFile` (the on-disk list).
* Emissions of `query-changed` are logged (most recent first) in `emitted`.
-/

namespace Searchbar

/-- The external collaborators of the widget: the query parser's
`Query.is_parsable` predicate and the `settings.eager_search` config flag. -/
structure Env where
  is_parsable : String → Bool
  eager_search : Bool

/-- A live GLib source scheduled by the search bar.
`idle text` models `GLib.idle_add(self.emit, 'query-changed', text)`;
`timeoutSrc ms` models `GLib.timeout_add(ms, self.__filter_changed)`. -/
inductive Source
  | idle (text : String)
  | timeoutSrc (delayMs : Nat)
deriving DecidableEq, Repr

/-- The GLib main loop state: the next fresh source id and the list of live
sources in scheduling order. -/
structure Glib where
  nextId : Nat
  sources : List (Nat × Source)
deriving DecidableEq, Repr

/-- `GLib.source_remove(id)`: remove the live source with the given id. -/
def Glib.source_remove (g : Glib) (id : Nat) : Glib :=
  { g with sources := g.sources.filter fun p => p.1 ≠ id }

/-- `GLib.idle_add` / `GLib.timeout_add`: register a new source and return its
id. -/
def Glib.add (g : Glib) (src : Source) : Nat × Glib :=
  (g.nextId, { nextId := g.nextId + 1, sources := g.sources ++ [(g.nextId, src)] })

/-- The observable state of a `SearchBarBox`:
the entry text, the combo box's active row (`-1` = none), `self.__refill_id`,
the saved-searches combo model and its on-disk copy, the log of
`query-changed` emissions (most recent first), and the GLib loop. -/
structure SearchBarBox where
  entryText : String
  comboActive : Int
  refill_id : Option Nat
  comboModel : List String
  savedFile : List String
  emitted : List String
  glib : Glib
deriving DecidableEq, Repr

/-- Python's `str.strip()`: the string with leading and trailing whitespace
removed. -/
def pyStrip (s : String) : String :=
  ⟨((s.data.dropWhile Char.isWhitespace).reverse.dropWhile Char.isWhitespace).reverse⟩

namespace SearchBarBox

/-- The class attribute `SearchBarBox.timeout`: the debounce delay in ms. -/
def timeout : Nat := 400

/-- `__remove_timeout`: if `self.__refill_id is not None`, remove the source
and reset the id. -/
def remove_timeout (s : SearchBarBox) : SearchBarBox :=
  match s.refill_id with
  | none => s
  | some id => { s with glib := s.glib.source_remove id, refill_id := none }

/-- `__filter_changed`: remove any pending source; if the entry text is
parsable, schedule an idle source that emits `query-changed` with that text. -/
def filter_changed (env : Env) (s : SearchBarBox) : SearchBarBox :=
  let s1 := remove_timeout s
  if env.is_parsable s1.entryText then
    let p := s1.glib.add (Source.idle s1.entryText)
    { s1 with glib := p.2, refill_id := some p.1 }
  else s1

/-- `__text_changed`: with an active combo row, behave as `__filter_changed`;
without `eager_search`, return immediately; otherwise remove the pending
source and, if the text is parsable, schedule a debounce timeout of
`timeout` ms that will run `__filter_changed`. -/
def text_changed (env : Env) (s : SearchBarBox) : SearchBarBox :=
  if s.comboActive ≠ -1 then filter_changed env s
  else if env.eager_search = false then s
  else
    let s1 := remove_timeout s
    if env.is_parsable s1.entryText then
      let p := s1.glib.add (Source.timeoutSrc timeout)
      { s1 with glib := p.2, refill_id := some p.1 }
    else s1

/-- `set_text`: remove the pending source, then change the entry text with
the `text-changed` handler blocked (so no handler runs). -/
def set_text (s : SearchBarBox) (text : String) : SearchBarBox :=
  let s1 := remove_timeout s
  { s1 with entryText := text }

/-- The public `changed()` method: `self.__filter_changed()`. -/
def changed (env : Env) (s : SearchBarBox) : SearchBarBox :=
  filter_changed env s

/-- `__save_search(entry, *args)`: `args` is non-empty exactly on the
`focus-out-event` path, where persistence requires `eager_search`; the
stripped text is prepended to the combo model and the model written to disk
when it is non-empty and parsable (the prepend happens with the
`text-changed` handler inhibited). -/
def save_search (env : Env) (fromFocusOut : Bool) (s : SearchBarBox) : SearchBarBox :=
  if fromFocusOut ∧ env.eager_search = false then s
  else
    let text := pyStrip s.entryText
    if text ≠ "" ∧ env.is_parsable text then
      { s with comboModel := text :: s.comboModel, savedFile := text :: s.comboModel }
    else s

/-- The entry's `activate` signal runs `__filter_changed` and then
`__save_search(entry)` (no extra args), in connection order. -/
def activate (env : Env) (s : SearchBarBox) : SearchBarBox :=
  save_search env false (filter_changed env s)

/-- The entry's `focus-out-event` signal runs `__save_search(entry, event)`. -/
def focus_out (env : Env) (s : SearchBarBox) : SearchBarBox :=
  save_search env true s

/-- The GLib loop dispatches the oldest live source.  An idle source emits
`query-changed` with its text and is removed (`self.emit` returns a falsy
value).  A timeout source is removed and runs `__filter_changed`
(`__filter_changed` returns a falsy value). -/
def fire (env : Env) (s : SearchBarBox) : SearchBarBox :=
  match s.glib.sources with
  | [] => s
  | (_, Source.idle text) :: rest =>
      { s with glib := { s.glib with sources := rest }, emitted := text :: s.emitted }
  | (_, Source.timeoutSrc _) :: rest =>
      filter_changed env { s with glib := { s.glib with sources := rest } }

end SearchBarBox

/-- The external stimuli the widget reacts to.  `typed` is a keyboard edit of
the entry (which leaves no combo row active) followed by the `text-changed`
signal; `selected` is a dropdown row choice; `clear` and `backspace` are the
entry signals of those names; `firePending` lets the GLib loop dispatch the
oldest live source. -/
inductive Event
  | typed (t : String)
  | selected (i : Nat) (t : String)
  | clear
  | backspace
  | activateEntry
  | focusOutEvent
  | changedCall
  | setTextCall (t : String)
  | firePending
deriving DecidableEq, Repr

open SearchBarBox in
/-- Dispatch of one event to the connected handlers, exactly as wired in
`SearchBarBox.__init__`. -/
def step (env : Env) (s : SearchBarBox) : Event → SearchBarBox
  | Event.typed t => text_changed env { s with entryText := t, comboActive := -1 }
  | Event.selected i t => text_changed env { s with entryText := t, comboActive := (i : Int) }
  | Event.clear => filter_changed env s
  | Event.backspace => text_changed env s
  | Event.activateEntry => activate env s
  | Event.focusOutEvent => focus_out env s
  | Event.changedCall => changed env s
  | Event.setTextCall t => set_text s t
  | Event.firePending => fire env s

/-- Run a sequence of events from a state. -/
def run (env : Env) (s : SearchBarBox) (es : List Event) : SearchBarBox :=
  es.foldl (step env) s

/-- The freshly constructed widget: empty entry, no active row, no pending
source, empty history and log, fresh GLib loop. -/
def init : SearchBarBox :=
  { entryText := ""
    comboActive := -1
    refill_id := none
    comboModel := []
    savedFile := []
    emitted := []
    glib := { nextId := 0, sources := [] } }

/-! ## The limit sub-widget -/

/-- A `Gtk.SpinButton` configured `numeric`: a range and the current value;
`get_value_as_int` clamps the stored value into the range. -/
structure SpinButton where
  lo : Int
  hi : Int
  raw : Int
deriving DecidableEq, Repr

/-- `Gtk.SpinButton.get_value_as_int`: the current value, clamped to the
configured range (a numeric spin button never reports a value outside it). -/
def SpinButton.get_value_as_int (b : SpinButton) : Int :=
  max b.lo (min b.hi b.raw)

/-- The `LimitSearchBarBox.Limit` box: the spin button, the weight check
button, and the box's visibility. -/
structure Limit where
  visible : Bool
  spin : SpinButton
  weightActive : Bool
deriving DecidableEq, Repr

namespace Limit

/-- `Limit.__init__`: `limit.set_range(0, 9999)`, spin value 0, weight off;
the box starts hidden (`set_no_show_all` with `show_limit=False`). -/
def init : Limit :=
  { visible := false, spin := { lo := 0, hi := 9999, raw := 0 }, weightActive := false }

/-- The `value` property: `self.__limit.get_value_as_int()`. -/
def value (l : Limit) : Int :=
  l.spin.get_value_as_int

/-- The `weighted` property: `self.__weight.get_active()`. -/
def weighted (l : Limit) : Bool :=
  l.weightActive

end Limit

/-- The user interactions that change the limit box: spinning the value,
toggling the weight check button, and `toggle_limit_widgets` showing or
hiding the box. -/
inductive LimitOp
  | setValue (v : Int)
  | toggleWeight
  | setVisible (b : Bool)
deriving DecidableEq, Repr

/-- Apply one limit-box interaction. -/
def limitStep (l : Limit) : LimitOp → Limit
  | LimitOp.setValue v => { l with spin := { l.spin with raw := v } }
  | LimitOp.toggleWeight => { l with weightActive := !l.weightActive }
  | LimitOp.setVisible b => { l with visible := b }

/-- Run a sequence of limit-box interactions. -/
def runLimit (l : Limit) (ops : List LimitOp) : Limit :=
  ops.foldl limitStep l

/-- `LimitSearchBarBox.limit(songs)`: when the limit box is visible, delegate
to `limit_songs(songs, value, weighted)`; otherwise return the songs
unchanged.  `limit_songs` is an external utility, passed as a parameter. -/
def LimitSearchBarBox.limit {α : Type} (limit_songs : List α → Int → Bool → List α)
    (l : Limit) (songs : List α) : List α :=
  if l.visible then limit_songs songs l.value l.weighted else songs

/-! ## Scheduling invariants -/

open SearchBarBox

/-- `__refill_id` bookkeeping is sound: either no searchbar source is live, or
exactly one is and `refill_id` holds its id. -/
def WellScheduled (s : SearchBarBox) : Prop :=
  s.glib.sources = [] ∨
    ∃ id src, s.refill_id = some id ∧ s.glib.sources = [(id, src)]

/-- Every logged emission and every scheduled idle emission carries a
parsable query. -/
def EmitInv (env : Env) (s : SearchBarBox) : Prop :=
  (∀ t ∈ s.emitted, env.is_parsable t = true) ∧
    ∀ id t, (id, Source.idle t) ∈ s.glib.sources → env.is_parsable t = true

/-- The combined reachability invariant. -/
def Inv (env : Env) (s : SearchBarBox) : Prop :=
  WellScheduled s ∧ EmitInv env s

/-- The state of the widget after a burst of keystrokes, relative to the
state `s0` the burst started from: the last keystroke's text is in the
entry, no row is active, nothing was emitted or persisted during the burst,
and the only live source is the debounce timeout (present exactly when the
last text is parsable). -/
def AfterBurst (env : Env) (s0 s : SearchBarBox) (t : String) : Prop :=
  s.entryText = t ∧ s.comboActive = -1 ∧
  s.emitted = s0.emitted ∧ s.comboModel = s0.comboModel ∧ s.savedFile = s0.savedFile ∧
  (if env.is_parsable t
   then ∃ n, s.refill_id = some n ∧ s.glib.sources = [(n, Source.timeoutSrc timeout)]
   else s.refill_id = none ∧ s.glib.sources = [])

/-- A concrete environment for witnesses: every string except "bad" parses,
`eager_search` enabled. -/
def envDemo : Env := { is_parsable := fun t => t != "bad", eager_search := true }

/-- A concrete environment for witnesses with `eager_search` disabled. -/
def envNoEager : Env := { is_parsable := fun t => t != "bad", eager_search := false }

/-- A concrete event sequence: type "a", let the debounce timeout fire, then
let the scheduled idle emission fire. -/
def demoEvents : List Event := [Event.typed "a", Event.firePending, Event.firePending]

lemma remove_timeout_fields (s : SearchBarBox) :
    (remove_timeout s).entryText = s.entryText ∧
    (remove_timeout s).comboActive = s.comboActive ∧
    (remove_timeout s).comboModel = s.comboModel ∧
    (remove_timeout s).savedFile = s.savedFile ∧
    (remove_timeout s).emitted = s.emitted ∧
    (remove_timeout s).glib.nextId = s.glib.nextId ∧
    (remove_timeout s).refill_id = none := by
  unfold remove_timeout
  cases hr : s.refill_id with
  | none => exact ⟨rfl, rfl, rfl, rfl, rfl, rfl, hr⟩
  | some id => exact ⟨rfl, rfl, rfl, rfl, rfl, rfl, rfl⟩

lemma remove_timeout_sources_sub (s : SearchBarBox) :
    ∀ p ∈ (remove_timeout s).glib.sources, p ∈ s.glib.sources := by
  unfold remove_timeout
  cases hr : s.refill_id with
  | none => exact fun p hp => hp
  | some id =>
      intro p hp
      simp only [Glib.source_remove, List.mem_filter] at hp
      exact hp.1

lemma remove_timeout_sources_nil (s : SearchBarBox) (hws : WellScheduled s) :
    (remove_timeout s).glib.sources = [] := by
  unfold remove_timeout
  cases hr : s.refill_id with
  | none =>
      rcases hws with h0 | ⟨id, src, hr2, hs⟩
      · exact h0
      · rw [hr] at hr2
        cases hr2
  | some id =>
      rcases hws with h0 | ⟨id2, src, hr2, hs⟩
      · simp [Glib.source_remove, h0]
      · rw [hr] at hr2
        cases Option.some.inj hr2
        simp [Glib.source_remove, hs]

lemma ws_remove_timeout (s : SearchBarBox) (hws : WellScheduled s) :
    WellScheduled (remove_timeout s) :=
  Or.inl (remove_timeout_sources_nil s hws)

lemma emitInv_remove_timeout (env : Env) (s : SearchBarBox) (hei : EmitInv env s) :
    EmitInv env (remove_timeout s) := by
  obtain ⟨-, -, -, -, h5, -, -⟩ := remove_timeout_fields s
  refine ⟨?_, ?_⟩
  · rw [h5]
    exact hei.1
  · intro id t hmem
    exact hei.2 id t (remove_timeout_sources_sub s _ hmem)

lemma filter_changed_fields (env : Env) (s : SearchBarBox) :
    (filter_changed env s).entryText = s.entryText ∧
    (filter_changed env s).comboActive = s.comboActive ∧
    (filter_changed env s).comboModel = s.comboModel ∧
    (filter_changed env s).savedFile = s.savedFile ∧
    (filter_changed env s).emitted = s.emitted := by
  obtain ⟨h1, h2, h3, h4, h5, -, -⟩ := remove_timeout_fields s
  simp only [filter_changed, Glib.add]
  split
  · exact ⟨h1, h2, h3, h4, h5⟩
  · exact ⟨h1, h2, h3, h4, h5⟩

lemma filter_changed_sched (env : Env) (s : SearchBarBox) (hws : WellScheduled s) :
    (filter_changed env s).glib.sources =
      (if env.is_parsable s.entryText then [(s.glib.nextId, Source.idle s.entryText)] else []) ∧
    (filter_changed env s).refill_id =
      (if env.is_parsable s.entryText then some s.glib.nextId else none) := by
  obtain ⟨h1, -, -, -, -, h6, h7⟩ := remove_timeout_fields s
  have h0 := remove_timeout_sources_nil s hws
  simp only [filter_changed, Glib.add]
  rw [h1]
  split <;> rename_i hp
  · exact ⟨by simp [h0, h6], by simp [h6]⟩
  · exact ⟨h0, h7⟩

lemma ws_filter_changed (env : Env) (s : SearchBarBox) (hws : WellScheduled s) :
    WellScheduled (filter_changed env s) := by
  obtain ⟨hsrc, hrid⟩ := filter_changed_sched env s hws
  by_cases hp : env.is_parsable s.entryText = true
  · rw [if_pos hp] at hsrc
    rw [if_pos hp] at hrid
    exact Or.inr ⟨s.glib.nextId, Source.idle s.entryText, hrid, hsrc⟩
  · rw [if_neg hp] at hsrc
    exact Or.inl hsrc

lemma emitInv_filter_changed (env : Env) (s : SearchBarBox) (hei : EmitInv env s) :
    EmitInv env (filter_changed env s) := by
  obtain ⟨h1, -, -, -, -, -, -⟩ := remove_timeout_fields s
  have hrt := emitInv_remove_timeout env s hei
  simp only [filter_changed, Glib.add]
  split <;> rename_i hp
  · refine ⟨hrt.1, ?_⟩
    intro id t hmem
    rcases List.mem_append.mp hmem with h | h
    · exact hrt.2 id t h
    · simp only [List.mem_singleton, Prod.mk.injEq, Source.idle.injEq] at h
      rw [h.2, h1]
      rw [h1] at hp
      exact hp
  · exact hrt

lemma text_changed_fields (env : Env) (s : SearchBarBox) :
    (text_changed env s).entryText = s.entryText ∧
    (text_changed env s).comboActive = s.comboActive ∧
    (text_changed env s).comboModel = s.comboModel ∧
    (text_changed env s).savedFile = s.savedFile ∧
    (text_changed env s).emitted = s.emitted := by
  obtain ⟨h1, h2, h3, h4, h5, -, -⟩ := remove_timeout_fields s
  obtain ⟨f1, f2, f3, f4, f5⟩ := filter_changed_fields env s
  simp only [text_changed, Glib.add]
  split
  · exact ⟨f1, f2, f3, f4, f5⟩
  · split
    · exact ⟨rfl, rfl, rfl, rfl, rfl⟩
    · split
      · exact ⟨h1, h2, h3, h4, h5⟩
      · exact ⟨h1, h2, h3, h4, h5⟩

lemma text_changed_sched (env : Env) (s : SearchBarBox) (hws : WellScheduled s)
    (hcombo : s.comboActive = -1) (heager : env.eager_search = true) :
    (text_changed env s).glib.sources =
      (if env.is_parsable s.entryText
       then [(s.glib.nextId, Source.timeoutSrc timeout)] else []) ∧
    (text_changed env s).refill_id =
      (if env.is_parsable s.entryText then some s.glib.nextId else none) := by
  obtain ⟨h1, -, -, -, -, h6, h7⟩ := remove_timeout_fields s
  have h0 := remove_timeout_sources_nil s hws
  simp only [text_changed, Glib.add]
  rw [if_neg (by simp [hcombo]), if_neg (by simp [heager])]
  rw [h1]
  split <;> rename_i hp
  · exact ⟨by simp [h0, h6], by simp [h6]⟩
  · exact ⟨h0, h7⟩

lemma ws_text_changed (env : Env) (s : SearchBarBox) (hws : WellScheduled s) :
    WellScheduled (text_changed env s) := by
  simp only [text_changed, Glib.add]
  split
  · exact ws_filter_changed env s hws
  · split
    · exact hws
    · have h0 := remove_timeout_sources_nil s hws
      split
      · refine Or.inr ⟨(remove_timeout s).glib.nextId, Source.timeoutSrc timeout, rfl, ?_⟩
        rw [h0]
        rfl
      · exact Or.inl h0

lemma emitInv_text_changed (env : Env) (s : SearchBarBox) (hei : EmitInv env s) :
    EmitInv env (text_changed env s) := by
  have hrt := emitInv_remove_timeout env s hei
  simp only [text_changed, Glib.add]
  split
  · exact emitInv_filter_changed env s hei
  · split
    · exact hei
    · split
      · refine ⟨hrt.1, ?_⟩
        intro id t hmem
        rcases List.mem_append.mp hmem with h | h
        · exact hrt.2 id t h
        · simp at h
      · exact hrt

lemma save_search_frame (env : Env) (b : Bool) (s : SearchBarBox) :
    (save_search env b s).glib = s.glib ∧
    (save_search env b s).refill_id = s.refill_id ∧
    (save_search env b s).emitted = s.emitted ∧
    (save_search env b s).entryText = s.entryText ∧
    (save_search env b s).comboActive = s.comboActive := by
  simp only [save_search]
  split
  · exact ⟨rfl, rfl, rfl, rfl, rfl⟩
  · split
    · exact ⟨rfl, rfl, rfl, rfl, rfl⟩
    · exact ⟨rfl, rfl, rfl, rfl, rfl⟩

lemma ws_save_search (env : Env) (b : Bool) (s : SearchBarBox) (hws : WellScheduled s) :
    WellScheduled (save_search env b s) := by
  obtain ⟨hg, hr, -, -, -⟩ := save_search_frame env b s
  unfold WellScheduled
  rw [hg, hr]
  exact hws

lemma emitInv_save_search (env : Env) (b : Bool) (s : SearchBarBox) (hei : EmitInv env s) :
    EmitInv env (save_search env b s) := by
  obtain ⟨hg, -, he, -, -⟩ := save_search_frame env b s
  unfold EmitInv
  rw [hg, he]
  exact hei

lemma set_text_fields (s : SearchBarBox) (t : String) :
    (set_text s t).entryText = t ∧
    (set_text s t).comboActive = s.comboActive ∧
    (set_text s t).comboModel = s.comboModel ∧
    (set_text s t).savedFile = s.savedFile ∧
    (set_text s t).emitted = s.emitted ∧
    (set_text s t).refill_id = none ∧
    ∀ p ∈ (set_text s t).glib.sources, p ∈ s.glib.sources := by
  obtain ⟨-, h2, h3, h4, h5, -, h7⟩ := remove_timeout_fields s
  exact ⟨rfl, h2, h3, h4, h5, h7, fun p hp => remove_timeout_sources_sub s p hp⟩

lemma ws_set_text (s : SearchBarBox) (t : String) (hws : WellScheduled s) :
    WellScheduled (set_text s t) :=
  Or.inl (remove_timeout_sources_nil s hws)

lemma emitInv_set_text (env : Env) (s : SearchBarBox) (t : String) (hei : EmitInv env s) :
    EmitInv env (set_text s t) := by
  obtain ⟨-, -, -, -, h5, -, h7⟩ := set_text_fields s t
  refine ⟨?_, ?_⟩
  · rw [h5]
    exact hei.1
  · intro id u hmem
    exact hei.2 id u (h7 _ hmem)

lemma ws_fire (env : Env) (s : SearchBarBox) (hws : WellScheduled s) :
    WellScheduled (fire env s) := by
  unfold fire
  cases hsrc : s.glib.sources with
  | nil => exact hws
  | cons p rest =>
      obtain ⟨i, src⟩ := p
      rcases hws with h0 | ⟨id, src2, hr, hs⟩
      · rw [hsrc] at h0
        cases h0
      · rw [hsrc] at hs
        injection hs with hhead htail
        cases src with
        | idle t => exact Or.inl htail
        | timeoutSrc d => exact ws_filter_changed env _ (Or.inl htail)

lemma emitInv_fire (env : Env) (s : SearchBarBox) (hei : EmitInv env s) :
    EmitInv env (fire env s) := by
  unfold fire
  cases hsrc : s.glib.sources with
  | nil => exact hei
  | cons p rest =>
      obtain ⟨i, src⟩ := p
      cases src with
      | idle t =>
          refine ⟨?_, ?_⟩
          · intro u hu
            rcases List.mem_cons.mp hu with h | h
            · subst h
              exact hei.2 i u (by rw [hsrc]; exact List.mem_cons_self _ _)
            · exact hei.1 u h
          · intro id u hmem
            exact hei.2 id u (by rw [hsrc]; exact List.mem_cons_of_mem _ hmem)
      | timeoutSrc d =>
          refine emitInv_filter_changed env _ ⟨hei.1, ?_⟩
          intro id u hmem
          exact hei.2 id u (by rw [hsrc]; exact List.mem_cons_of_mem _ hmem)

lemma inv_init (env : Env) : Inv env init := by
  refine ⟨Or.inl rfl, ?_, ?_⟩
  · intro t ht
    simp [init] at ht
  · intro id t hmem
    simp [init] at hmem

lemma inv_step (env : Env) (s : SearchBarBox) (e : Event) (h : Inv env s) :
    Inv env (step env s e) := by
  obtain ⟨hws, hei⟩ := h
  cases e with
  | typed t =>
      exact ⟨ws_text_changed env _ hws, emitInv_text_changed env _ hei⟩
  | selected i t =>
      exact ⟨ws_text_changed env _ hws, emitInv_text_changed env _ hei⟩
  | clear =>
      exact ⟨ws_filter_changed env s hws, emitInv_filter_changed env s hei⟩
  | backspace =>
      exact ⟨ws_text_changed env s hws, emitInv_text_changed env s hei⟩
  | activateEntry =>
      exact ⟨ws_save_search env false _ (ws_filter_changed env s hws),
             emitInv_save_search env false _ (emitInv_filter_changed env s hei)⟩
  | focusOutEvent =>
      exact ⟨ws_save_search env true s hws, emitInv_save_search env true s hei⟩
  | changedCall =>
      exact ⟨ws_filter_changed env s hws, emitInv_filter_changed env s hei⟩
  | setTextCall t =>
      exact ⟨ws_set_text s t hws, emitInv_set_text env s t hei⟩
  | firePending =>
      exact ⟨ws_fire env s hws, emitInv_fire env s hei⟩

lemma inv_run (env : Env) (s : SearchBarBox) (es : List Event) (h : Inv env s) :
    Inv env (run env s es) := by
  induction es generalizing s with
  | nil => exact h
  | cons e es ih => exact ih (step env s e) (inv_step env s e h)

lemma inv_reach (env : Env) (es : List Event) : Inv env (run env init es) :=
  inv_run env init es (inv_init env)

/-! ## Firing helpers and the burst lemma -/

lemma fire_nil (env : Env) (s : SearchBarBox) (hs : s.glib.sources = []) :
    fire env s = s := by
  unfold fire
  rw [hs]

lemma fire_idle_emitted (env : Env) (s : SearchBarBox) (n : Nat) (t : String)
    (hs : s.glib.sources = [(n, Source.idle t)]) :
    (fire env s).emitted = t :: s.emitted := by
  unfold fire
  rw [hs]

lemma fire_timeout_eq (env : Env) (s : SearchBarBox) (n : Nat) (d : Nat)
    (hs : s.glib.sources = [(n, Source.timeoutSrc d)]) :
    fire env s = filter_changed env { s with glib := { s.glib with sources := [] } } := by
  unfold fire
  rw [hs]

lemma afterBurst_ws (env : Env) (s0 s : SearchBarBox) (t : String)
    (hab : AfterBurst env s0 s t) : WellScheduled s := by
  obtain ⟨-, -, -, -, -, h6⟩ := hab
  by_cases hp : env.is_parsable t = true
  · rw [if_pos hp] at h6
    obtain ⟨n, hr, hs⟩ := h6
    exact Or.inr ⟨n, Source.timeoutSrc timeout, hr, hs⟩
  · rw [if_neg hp] at h6
    exact Or.inl h6.2

lemma typed_afterBurst (env : Env) (s0 : SearchBarBox) (t : String)
    (hws : WellScheduled s0) (heager : env.eager_search = true) :
    AfterBurst env s0 (step env s0 (Event.typed t)) t := by
  have hws1 : WellScheduled { s0 with entryText := t, comboActive := -1 } := hws
  obtain ⟨hsrc, hrid⟩ :=
    text_changed_sched env { s0 with entryText := t, comboActive := -1 } hws1 rfl heager
  obtain ⟨f1, f2, f3, f4, f5⟩ :=
    text_changed_fields env { s0 with entryText := t, comboActive := -1 }
  rw [show ({ s0 with entryText := t, comboActive := -1 } : SearchBarBox).entryText = t
        from rfl] at hsrc hrid
  refine ⟨f1, f2, f5, f3, f4, ?_⟩
  by_cases hp : env.is_parsable t = true
  · rw [if_pos hp] at hsrc hrid ⊢
    exact ⟨s0.glib.nextId, hrid, hsrc⟩
  · rw [if_neg hp] at hsrc hrid ⊢
    exact ⟨hrid, hsrc⟩

lemma burst_run (env : Env) (s0 : SearchBarBox) (ts : List String) (t : String)
    (hws : WellScheduled s0) (heager : env.eager_search = true) :
    AfterBurst env s0 (run env s0 ((ts ++ [t]).map Event.typed)) t := by
  induction ts generalizing s0 with
  | nil => exact typed_afterBurst env s0 t hws heager
  | cons t0 ts ih =>
      have hab0 := typed_afterBurst env s0 t0 hws heager
      have hws1 : WellScheduled (step env s0 (Event.typed t0)) :=
        afterBurst_ws env s0 _ t0 hab0
      have hab1 := ih (step env s0 (Event.typed t0)) hws1
      obtain ⟨g1, g2, g3, g4, g5, g6⟩ := hab1
      obtain ⟨-, -, h3, h4, h5, -⟩ := hab0
      exact ⟨g1, g2, g3.trans h3, g4.trans h4, g5.trans h5, g6⟩

lemma fire_afterBurst (env : Env) (s0 s : SearchBarBox) (t : String)
    (hab : AfterBurst env s0 s t) :
    (fire env (fire env s)).emitted =
      (if env.is_parsable t then t :: s0.emitted else s0.emitted) := by
  obtain ⟨h1, -, h3, -, -, h6⟩ := hab
  by_cases hp : env.is_parsable t = true
  · rw [if_pos hp] at h6 ⊢
    obtain ⟨n, -, hs⟩ := h6
    rw [fire_timeout_eq env s n timeout hs]
    obtain ⟨hsrcM, -⟩ :=
      filter_changed_sched env { s with glib := { s.glib with sources := [] } } (Or.inl rfl)
    obtain ⟨-, -, -, -, hemM⟩ :=
      filter_changed_fields env { s with glib := { s.glib with sources := [] } }
    have hpM : env.is_parsable
        ({ s with glib := { s.glib with sources := ([] : List (Nat × Source)) } }
          : SearchBarBox).entryText = true := by
      show env.is_parsable s.entryText = true
      rw [h1]
      exact hp
    rw [if_pos hpM] at hsrcM
    rw [fire_idle_emitted env _ _ _ hsrcM]
    rw [hemM]
    show s.entryText :: s.emitted = t :: s0.emitted
    rw [h1, h3]
  · rw [if_neg hp] at h6 ⊢
    rw [fire_nil env s h6.2, fire_nil env s h6.2]
    exact h3

/-! ## The claims -/

/-- C1: every `query-changed` emission carries a string `Query.is_parsable`
accepts, and for a rejected text no emission is ever scheduled on any code
path: in every reachable state, each logged emission and each scheduled idle
source carries a parsable query. -/
theorem C1_emissions_parsable (env : Env) (es : List Event) (t : String)
    (h : t ∈ (run env init es).emitted ∨
         ∃ id, (id, Source.idle t) ∈ (run env init es).glib.sources) :
    env.is_parsable t = true := by
  obtain ⟨-, hei⟩ := inv_reach env es
  rcases h with h | ⟨id, h⟩
  · exact hei.1 t h
  · exact hei.2 id t h

/-- Witness for C1 at a concrete run that emits "a". -/
theorem C1_emissions_parsable_witness :
    ("a" ∈ (run envDemo init demoEvents).emitted ∨
      ∃ id, (id, Source.idle "a") ∈ (run envDemo init demoEvents).glib.sources) ∧
    envDemo.is_parsable "a" = true :=
  ⟨Or.inl (by decide), C1_emissions_parsable envDemo demoEvents "a" (Or.inl (by decide))⟩

/-- C2 counterexample: with `eager_search` disabled, activating the entry on
the parsable text "a" still prepends it to the saved-searches history and
writes the file — so persistence is not gated by the flag on every path. -/
theorem C2_counterexample :
    envNoEager.eager_search = false ∧
    (run envNoEager init [Event.setTextCall "a", Event.activateEntry]).savedFile = ["a"] ∧
    (run envNoEager init [Event.setTextCall "a", Event.activateEntry]).comboModel = ["a"] :=
  ⟨rfl, by decide, by decide⟩

/-- C2 amended: only the focus-out persistence path is gated by
`eager_search`; with the flag disabled, a focus-out event changes nothing
(while the activation path persists regardless of the flag, per C4). -/
theorem C2_focus_out_gated (env : Env) (s : SearchBarBox)
    (h : env.eager_search = false) :
    focus_out env s = s := by
  unfold focus_out save_search
  rw [if_pos ⟨rfl, h⟩]

/-- Witness for the amended C2. -/
theorem C2_focus_out_gated_witness :
    envNoEager.eager_search = false ∧ focus_out envNoEager init = init :=
  ⟨rfl, C2_focus_out_gated envNoEager init rfl⟩

/-- C3: a keyboard text change with no active dropdown row, `eager_search`
enabled, and parsable new text leaves exactly one live source: a debounce
timeout of `SearchBarBox.timeout` = 400 ms that will run `__filter_changed`
— never an immediate idle emission. -/
theorem C3_debounced_not_immediate (env : Env) (es : List Event) (t : String)
    (heager : env.eager_search = true) (hp : env.is_parsable t = true) :
    (step env (run env init es) (Event.typed t)).glib.sources
        = [((run env init es).glib.nextId, Source.timeoutSrc SearchBarBox.timeout)] ∧
    (step env (run env init es) (Event.typed t)).refill_id
        = some (run env init es).glib.nextId ∧
    SearchBarBox.timeout = 400 := by
  obtain ⟨hws, -⟩ := inv_reach env es
  have hws1 : WellScheduled { run env init es with entryText := t, comboActive := -1 } := hws
  obtain ⟨hsrc, hrid⟩ := text_changed_sched env _ hws1 rfl heager
  rw [show ({ run env init es with entryText := t, comboActive := -1 }
        : SearchBarBox).entryText = t from rfl] at hsrc hrid
  rw [if_pos hp] at hsrc hrid
  exact ⟨hsrc, hrid, rfl⟩

/-- Witness for C3 from the initial state. -/
theorem C3_debounced_not_immediate_witness :
    envDemo.eager_search = true ∧ envDemo.is_parsable "a" = true ∧
    ((step envDemo (run envDemo init []) (Event.typed "a")).glib.sources
        = [((run envDemo init []).glib.nextId, Source.timeoutSrc SearchBarBox.timeout)] ∧
      (step envDemo (run envDemo init []) (Event.typed "a")).refill_id
        = some (run envDemo init []).glib.nextId ∧
      SearchBarBox.timeout = 400) :=
  ⟨rfl, by decide, C3_debounced_not_immediate envDemo [] "a" rfl (by decide)⟩

/-- C4: on entry activation, the stripped entry text is prepended to the
saved-searches model and the model written to disk exactly when the stripped
text is non-empty and parsable; otherwise model and file are unchanged. -/
theorem C4_activation_persistence (env : Env) (s : SearchBarBox) :
    (activate env s).comboModel =
      (if pyStrip s.entryText ≠ "" ∧ env.is_parsable (pyStrip s.entryText)
       then pyStrip s.entryText :: s.comboModel else s.comboModel) ∧
    (activate env s).savedFile =
      (if pyStrip s.entryText ≠ "" ∧ env.is_parsable (pyStrip s.entryText)
       then pyStrip s.entryText :: s.comboModel else s.savedFile) := by
  obtain ⟨f1, -, f3, f4, -⟩ := filter_changed_fields env s
  unfold activate
  simp only [save_search]
  rw [if_neg (by simp)]
  rw [f1]
  split
  · exact ⟨by simp [f3], by simp [f3]⟩
  · exact ⟨f3, f4⟩

/-- C5: `LimitSearchBarBox.limit` returns the songs unchanged when the limit
widget is not visible, and returns exactly
`limit_songs(songs, value, weighted)` when it is visible. -/
theorem C5_limit_optional {α : Type} (limit_songs : List α → Int → Bool → List α)
    (l : Limit) (songs : List α) :
    (l.visible = false → LimitSearchBarBox.limit limit_songs l songs = songs) ∧
    (l.visible = true → LimitSearchBarBox.limit limit_songs l songs
        = limit_songs songs l.value l.weighted) := by
  constructor <;> intro h <;> simp [LimitSearchBarBox.limit, h]

/-- C6: in every reachable state at most one scheduled source is live, and a
burst of keystrokes ending in `t` emits nothing during the burst and at most
one `query-changed` afterwards, carrying the latest text `t`. -/
theorem C6_debounce_burst (env : Env) (es : List Event) (ts : List String) (t : String)
    (heager : env.eager_search = true) :
    (run env init es).glib.sources.length ≤ 1 ∧
    (run env (run env init es) ((ts ++ [t]).map Event.typed)).emitted
        = (run env init es).emitted ∧
    (fire env (fire env (run env (run env init es) ((ts ++ [t]).map Event.typed)))).emitted
        = (if env.is_parsable t then t :: (run env init es).emitted
           else (run env init es).emitted) := by
  obtain ⟨hws, -⟩ := inv_reach env es
  have hab := burst_run env (run env init es) ts t hws heager
  refine ⟨?_, hab.2.2.1, fire_afterBurst env _ _ t hab⟩
  rcases hws with h0 | ⟨id, src, -, hs⟩
  · rw [h0]
    simp
  · rw [hs]
    simp

/-- Witness for C6: a two-keystroke burst from the initial state. -/
theorem C6_debounce_burst_witness :
    envDemo.eager_search = true ∧
    ((run envDemo init []).glib.sources.length ≤ 1 ∧
      (run envDemo (run envDemo init []) ((["ab"] ++ ["a"]).map Event.typed)).emitted
          = (run envDemo init []).emitted ∧
      (fire envDemo (fire envDemo
          (run envDemo (run envDemo init []) ((["ab"] ++ ["a"]).map Event.typed)))).emitted
          = (if envDemo.is_parsable "a" then "a" :: (run envDemo init []).emitted
             else (run envDemo init []).emitted)) :=
  ⟨rfl, C6_debounce_burst envDemo [] ["ab"] "a" rfl⟩

/-- C7: the public `changed()` schedules a `query-changed` emission carrying
the current entry text exactly when the text is parsable; when it is not,
nothing remains scheduled — the previously pending source is cancelled. -/
theorem C7_changed_filters (env : Env) (es : List Event) :
    (changed env (run env init es)).glib.sources =
      (if env.is_parsable (run env init es).entryText
       then [((run env init es).glib.nextId, Source.idle (run env init es).entryText)]
       else []) ∧
    (changed env (run env init es)).refill_id =
      (if env.is_parsable (run env init es).entryText
       then some (run env init es).glib.nextId else none) := by
  obtain ⟨hws, -⟩ := inv_reach env es
  exact filter_changed_sched env _ hws

/-- C8: with `eager_search` disabled and no active dropdown row,
`__text_changed` is a complete no-op — search-as-you-type is entirely
disabled, and a keystroke changes only the entry text. -/
theorem C8_no_eager_noop (env : Env) (s : SearchBarBox) (t : String)
    (heager : env.eager_search = false) (hcombo : s.comboActive = -1) :
    text_changed env s = s ∧
    step env s (Event.typed t) = { s with entryText := t, comboActive := -1 } := by
  constructor
  · unfold text_changed
    rw [if_neg (by simp [hcombo]), if_pos heager]
  · show text_changed env { s with entryText := t, comboActive := -1 } = _
    unfold text_changed
    rw [if_neg (by simp), if_pos heager]

/-- Witness for C8 at the initial state. -/
theorem C8_no_eager_noop_witness :
    envNoEager.eager_search = false ∧ init.comboActive = -1 ∧
    (text_changed envNoEager init = init ∧
      step envNoEager init (Event.typed "a")
        = { init with entryText := "a", comboActive := -1 }) :=
  ⟨rfl, rfl, C8_no_eager_noop envNoEager init "a" rfl rfl⟩

/-- C9: `set_text` replaces the entry text, cancels any pending scheduled
emission, schedules nothing new, and leaves the emission log, history model,
file, and active row unchanged. -/
theorem C9_set_text_frame (s : SearchBarBox) (t : String) :
    (set_text s t).entryText = t ∧
    (set_text s t).refill_id = none ∧
    (set_text s t).emitted = s.emitted ∧
    (set_text s t).comboModel = s.comboModel ∧
    (set_text s t).savedFile = s.savedFile ∧
    (set_text s t).comboActive = s.comboActive ∧
    ∀ p ∈ (set_text s t).glib.sources, p ∈ s.glib.sources := by
  obtain ⟨h1, h2, h3, h4, h5, h6, h7⟩ := set_text_fields s t
  exact ⟨h1, h6, h5, h3, h4, h2, h7⟩

lemma limit_range_stable (ops : List LimitOp) :
    (runLimit Limit.init ops).spin.lo = 0 ∧ (runLimit Limit.init ops).spin.hi = 9999 := by
  have main : ∀ l : Limit, l.spin.lo = 0 → l.spin.hi = 9999 →
      (runLimit l ops).spin.lo = 0 ∧ (runLimit l ops).spin.hi = 9999 := by
    induction ops with
    | nil => exact fun l h1 h2 => ⟨h1, h2⟩
    | cons op ops ih =>
        intro l h1 h2
        refine ih (limitStep l op) ?_ ?_ <;> cases op <;> simp [limitStep, h1, h2]
  exact main Limit.init rfl rfl

/-- C10: in every reachable limit-box state, the count the spin button
reports is an integer in [0, 9999], and `limit` either leaves the songs
unchanged or calls `limit_songs` with exactly that in-range count. -/
theorem C10_limit_range {α : Type} (limit_songs : List α → Int → Bool → List α)
    (songs : List α) (ops : List LimitOp) :
    (0 ≤ (runLimit Limit.init ops).value ∧ (runLimit Limit.init ops).value ≤ 9999) ∧
    (LimitSearchBarBox.limit limit_songs (runLimit Limit.init ops) songs = songs ∨
      LimitSearchBarBox.limit limit_songs (runLimit Limit.init ops) songs
        = limit_songs songs (runLimit Limit.init ops).value
            (runLimit Limit.init ops).weighted) := by
  obtain ⟨h1, h2⟩ := limit_range_stable ops
  constructor
  · simp only [Limit.value, SpinButton.get_value_as_int, h1, h2]
    exact ⟨le_max_left 0 _, max_le (by norm_num) (min_le_left _ _)⟩
  · unfold LimitSearchBarBox.limit
    by_cases hv : (runLimit Limit.init ops).visible = true
    · right
      rw [if_pos hv]
    · left
      rw [if_neg hv]

end Searchbar
